import Mathlib

/-!
Shallow embedding of the Om Services admin panel entity stores
(document / customer / builder / attendance / salary hooks and the
database query gateway), together with proofs of the behavioural
properties its specification states.

Conventions of the embedding:
* Monetary amounts, hours and millisecond timestamps are rational
  numbers (the source uses JS numbers; the arithmetic identities under
  proof are exact, so `Rat` is the faithful exact model).
* `Option` models fields that may be `undefined` in the source; the JS
  `x || d` fallback on strings/numbers (which also replaces `""` and
  `0`) is modelled explicitly by `jsOr...` helpers.
* Each store operation is a pure function from the store list (plus the
  explicit "current time" the source reads from `Date`) to the new
  list; operations that `throw` return `Except String`.
* Records keep exactly the fields the verified operations read or
  write; purely presentational fields are omitted.
-/

namespace OmApp

/-- JS `s.padStart(n, c)`. -/
def padStart (s : String) (n : Nat) (c : Char) : String :=
  if n ≤ s.length then s
  else ⟨List.replicate (n - s.length) c ++ s.data⟩

/-- JS `o || d` for an optional string field: `undefined` and `""` fall back. -/
def jsOrStr (o : Option String) (d : String) : String :=
  match o with
  | some s => if s = "" then d else s
  | none => d

/-- JS `o || d` for an optional numeric field: `undefined` and `0` fall back. -/
def jsOrNum (o : Option ℚ) (d : ℚ) : ℚ :=
  match o with
  | some x => if x = 0 then d else x
  | none => d

/-- JS `a || b` where both sides are optional strings (`notes || existing.notes`). -/
def jsOrOptStr (a b : Option String) : Option String :=
  match a with
  | some s => if s = "" then b else some s
  | none => b

/-- JS `Math.round (x * 100) / 100` (round to two decimals, half away from zero
on the non-negative range, i.e. `floor (y + 1/2)`). -/
def jsRound2 (x : ℚ) : ℚ :=
  ((⌊x * 100 + 1 / 2⌋ : ℤ) : ℚ) / 100

/-- JS `s.toUpperCase().replace('_', '')` removes only the first underscore;
this is the list-level removal of the first occurrence of a character. -/
def removeFirstChar (c : Char) : List Char → List Char
  | [] => []
  | x :: xs => if x = c then xs else x :: removeFirstChar c xs

def jsStripFirstUnderscore (s : String) : String :=
  ⟨removeFirstChar '_' s.data⟩

/-- JS `s.toUpperCase()` / `s.toLowerCase()` (character-wise, as list maps so
that they compute inside the kernel). -/
def jsToUpperCase (s : String) : String :=
  ⟨s.data.map Char.toUpper⟩

def jsToLowerCase (s : String) : String :=
  ⟨s.data.map Char.toLower⟩

/-! ## Payroll (`useSalary.tsx`) -/

structure SalaryAllowance where
  id : String
  amount : ℚ
  deriving DecidableEq

structure SalaryDeduction where
  id : String
  amount : ℚ
  deriving DecidableEq

structure StaffSalaryConfig where
  id : String
  userId : String
  baseSalary : ℚ
  allowances : List SalaryAllowance
  deductions : List SalaryDeduction
  overtimeRate : ℚ
  isActive : Bool
  deriving DecidableEq

structure SalaryCalc where
  gross : ℚ
  net : ℚ
  deriving DecidableEq

/-- `calculateSalary` from `useSalary.tsx` (lines 228-237). -/
def calculateSalary (config : StaffSalaryConfig) (overtimeHours : ℚ := 0)
    (bonus : ℚ := 0) : SalaryCalc :=
  let totalAllowances := config.allowances.foldl (fun sum a => sum + a.amount) 0
  let totalDeductions := config.deductions.foldl (fun sum d => sum + d.amount) 0
  let overtimeAmount := overtimeHours * config.overtimeRate
  let grossSalary := config.baseSalary + totalAllowances + overtimeAmount + bonus
  let netSalary := grossSalary - totalDeductions
  { gross := grossSalary, net := netSalary }

/-! ## Session / permission check (`useAuth`) -/

inductive UserRole where
  | main_admin
  | staff_admin
  | challan_staff
  | field_collection_staff
  | data_entry_staff
  | document_delivery_staff
  deriving DecidableEq

structure Permission where
  id : String
  module : String
  action : String
  granted : Bool
  deriving DecidableEq

structure User where
  id : String
  email : String
  name : String
  role : UserRole
  permissions : List Permission
  isActive : Bool
  deriving DecidableEq

/-- `hasPermission` from the auth hook: `none` is the signed-out state. -/
def hasPermission (user : Option User) (module action : String) : Bool :=
  match user with
  | none => false
  | some u =>
    if u.role = UserRole.main_admin then true
    else u.permissions.any fun p =>
      p.module == module && p.action == action && p.granted

/-- The mock main-admin user from the auth hook's demo data
(permissions list abbreviated to the entries' shape). -/
def mockAdmin : User :=
  { id := "1", email := "admin@omservices.com", name := "Main Admin"
    role := UserRole.main_admin
    permissions := [⟨"1", "documents", "create", true⟩]
    isActive := true }

/-- The mock challan-staff user from the auth hook's demo data. -/
def mockChallanStaff : User :=
  { id := "2", email := "challan@omservices.com", name := "Challan Staff"
    role := UserRole.challan_staff
    permissions :=
      [⟨"11", "documents", "read", true⟩,
       ⟨"12", "challans", "create", true⟩,
       ⟨"13", "challans", "update", true⟩,
       ⟨"14", "payments", "read", true⟩]
    isActive := true }

/-! ## Documents, customers, builders (`useDocuments`, `useCustomers`, `useBuilders`)

All store operations below are the local (database-not-connected) branches of
the hooks; the current year and the `Date.now()` millisecond timestamp the
source reads from the environment are explicit arguments. -/

inductive DocumentType where
  | agreement
  | lease_deed
  | sale_deed
  | mutation
  | partition_deed
  | gift_deed
  deriving DecidableEq

/-- The enum's string value, as it appears in the source. -/
def DocumentType.code : DocumentType → String
  | .agreement => "agreement"
  | .lease_deed => "lease_deed"
  | .sale_deed => "sale_deed"
  | .mutation => "mutation"
  | .partition_deed => "partition_deed"
  | .gift_deed => "gift_deed"

inductive DocumentStatus where
  | pending_collection
  | collected
  | data_entry_pending
  | data_entry_completed
  | registration_pending
  | registered
  | ready_for_delivery
  | delivered
  deriving DecidableEq

structure Document where
  id : String
  documentNumber : String
  customerName : String
  customerPhone : String
  customerEmail : Option String
  builderName : String
  propertyDetails : String
  documentType : DocumentType
  status : DocumentStatus
  assignedTo : Option String
  createdAtYear : Nat
  deriving DecidableEq

structure Customer where
  id : String
  name : String
  phone : String
  email : Option String
  address : String
  documents : List String
  deriving DecidableEq

structure Builder where
  id : String
  name : String
  contactPerson : String
  phone : String
  email : Option String
  address : String
  registrationNumber : Option String
  documents : List String
  deriving DecidableEq

/-- `Partial<Document>` restricted to the fields `createDocument` reads;
`documentType` is required because the source dereferences it with `!`. -/
structure DocumentInput where
  id : Option String := none
  documentNumber : Option String := none
  customerName : Option String := none
  customerPhone : Option String := none
  customerEmail : Option String := none
  builderName : Option String := none
  propertyDetails : Option String := none
  documentType : DocumentType
  status : Option DocumentStatus := none
  assignedTo : Option String := none
  deriving DecidableEq

/-- `Partial<Customer>` restricted to the fields `createCustomer` reads. -/
structure CustomerInput where
  id : Option String := none
  name : Option String := none
  phone : Option String := none
  email : Option String := none
  address : Option String := none
  documents : Option (List String) := none
  deriving DecidableEq

/-- `Partial<Builder>` restricted to the fields `createBuilder` reads. -/
structure BuilderInput where
  id : Option String := none
  name : Option String := none
  contactPerson : Option String := none
  phone : Option String := none
  email : Option String := none
  address : Option String := none
  registrationNumber : Option String := none
  documents : Option (List String) := none
  deriving DecidableEq

/-- `generateCustomerId` from `useCustomers`. -/
def generateCustomerId (customers : List Customer) : String :=
  "CUST" ++ padStart (toString (customers.length + 1)) 3 '0'

/-- `generateBuilderId` from `useBuilders`. -/
def generateBuilderId (builders : List Builder) : String :=
  "BLD" ++ padStart (toString (builders.length + 1)) 3 '0'

/-- `generateDocumentNumber` from `useDocuments` (lines 82-87): prefix is the
upper-cased type with its first underscore removed, the year is the current
year, and the sequence counts all stored documents of the same type. -/
def generateDocumentNumber (type : DocumentType) (year : Nat)
    (documents : List Document) : String :=
  let pfx := jsStripFirstUnderscore (jsToUpperCase type.code)
  let count := (documents.filter fun d => d.documentType == type).length + 1
  pfx ++ "/" ++ toString year ++ "/" ++ padStart (toString count) 3 '0'

/-- `createCustomer` (local branch), returning the new record and list.
The trailing `...data` spread makes every provided field win, so each field
is `data.field` when present and the written default otherwise. -/
def createCustomer (data : CustomerInput) (customers : List Customer) :
    Customer × List Customer :=
  let newCustomer : Customer :=
    { id := data.id.getD (generateCustomerId customers)
      name := data.name.getD ""
      phone := data.phone.getD ""
      email := data.email
      address := data.address.getD ""
      documents := data.documents.getD [] }
  (newCustomer, customers ++ [newCustomer])

/-- `updateCustomer` (local branch): shallow-merge the patch into every
record with the given id. Only the `documents` field is ever patched by the
verified callers. -/
def updateCustomerDocuments (id : String) (docs : List String)
    (customers : List Customer) : List Customer :=
  customers.map fun customer =>
    if customer.id == id then { customer with documents := docs } else customer

def getCustomer (id : String) (customers : List Customer) : Option Customer :=
  customers.find? fun customer => customer.id == id

def getCustomerByPhone (phone : String) (customers : List Customer) :
    Option Customer :=
  customers.find? fun customer => customer.phone == phone

/-- `addDocumentToCustomer` from `useCustomers` (lines 161-168). -/
def addDocumentToCustomer (customerId documentId : String)
    (customers : List Customer) : List Customer :=
  match getCustomer customerId customers with
  | some customer =>
    if documentId ∈ customer.documents then customers
    else updateCustomerDocuments customerId (customer.documents ++ [documentId])
      customers
  | none => customers

/-- `createBuilder` (local branch), returning the new record and list. -/
def createBuilder (data : BuilderInput) (builders : List Builder) :
    Builder × List Builder :=
  let newBuilder : Builder :=
    { id := data.id.getD (generateBuilderId builders)
      name := data.name.getD ""
      contactPerson := data.contactPerson.getD ""
      phone := data.phone.getD ""
      email := data.email
      address := data.address.getD ""
      registrationNumber := data.registrationNumber
      documents := data.documents.getD [] }
  (newBuilder, builders ++ [newBuilder])

def updateBuilderDocuments (id : String) (docs : List String)
    (builders : List Builder) : List Builder :=
  builders.map fun builder =>
    if builder.id == id then { builder with documents := docs } else builder

def getBuilder (id : String) (builders : List Builder) : Option Builder :=
  builders.find? fun builder => builder.id == id

/-- `getBuilderByName`: case-insensitive substring match on the name. -/
def getBuilderByName (name : String) (builders : List Builder) :
    Option Builder :=
  builders.find? fun builder =>
    decide ((jsToLowerCase name).data <:+: (jsToLowerCase builder.name).data)

/-- `addDocumentToBuilder` from `useBuilders` (lines 164-171). -/
def addDocumentToBuilder (builderId documentId : String)
    (builders : List Builder) : List Builder :=
  match getBuilder builderId builders with
  | some builder =>
    if documentId ∈ builder.documents then builders
    else updateBuilderDocuments builderId (builder.documents ++ [documentId])
      builders
  | none => builders

/-- The in-memory state the document-creation flow touches. -/
structure Store where
  documents : List Document
  customers : List Customer
  builders : List Builder
  deriving DecidableEq

/-- `createDocument` (local branch, `useDocuments` lines 141-197): build the
document (final `...data` spread), auto-create or link the customer by exact
phone match and the builder by case-insensitive substring name match, then
append the document. `year` is the current year, `t` the `Date.now()` value. -/
def createDocument (data : DocumentInput) (year : Nat) (t : Nat) (st : Store) :
    Document × Store :=
  let newDocument : Document :=
    { id := data.id.getD ("DOC" ++ toString t)
      documentNumber := data.documentNumber.getD
        (generateDocumentNumber data.documentType year st.documents)
      customerName := data.customerName.getD ""
      customerPhone := data.customerPhone.getD ""
      customerEmail := data.customerEmail
      builderName := data.builderName.getD ""
      propertyDetails := data.propertyDetails.getD ""
      documentType := data.documentType
      status := data.status.getD DocumentStatus.pending_collection
      assignedTo := data.assignedTo
      createdAtYear := year }
  let customers1 :=
    if newDocument.customerName ≠ "" ∧ newDocument.customerPhone ≠ "" then
      match getCustomerByPhone newDocument.customerPhone st.customers with
      | none =>
        (createCustomer
          { name := some newDocument.customerName
            phone := some newDocument.customerPhone
            email := newDocument.customerEmail
            address := some newDocument.propertyDetails
            documents := some [newDocument.id] } st.customers).2
      | some customer => addDocumentToCustomer customer.id newDocument.id
          st.customers
    else st.customers
  let builders1 :=
    if newDocument.builderName ≠ "" then
      match getBuilderByName newDocument.builderName st.builders with
      | none =>
        (createBuilder
          { name := some newDocument.builderName
            contactPerson := some "Contact Person"
            phone := some "+91 0000000000"
            address := some "Address not provided"
            documents := some [newDocument.id] } st.builders).2
      | some builder => addDocumentToBuilder builder.id newDocument.id
          st.builders
    else st.builders
  (newDocument,
   { documents := st.documents ++ [newDocument]
     customers := customers1
     builders := builders1 })

/-- `updateDocument` (local branch) specialised to the `{ status }` patch that
`updateStatus` sends: shallow-merge into every record with the given id. -/
def updateStatus (id : String) (status : DocumentStatus)
    (documents : List Document) : List Document :=
  documents.map fun doc =>
    if doc.id == id then { doc with status := status } else doc

def getDocument (id : String) (documents : List Document) : Option Document :=
  documents.find? fun doc => doc.id == id

/-- Spec-side prefix table: the spec's `T_PREFIX` spelled out per document
type (upper-cased enum value with the underscore dropped). -/
def docTypeTagSpec : DocumentType → String
  | .agreement => "AGREEMENT"
  | .lease_deed => "LEASEDEED"
  | .sale_deed => "SALEDEED"
  | .mutation => "MUTATION"
  | .partition_deed => "PARTITIONDEED"
  | .gift_deed => "GIFTDEED"

/-- Spec-side zero-padding to three digits. -/
def pad3Spec (k : Nat) : String :=
  if k < 10 then "00" ++ toString k
  else if k < 100 then "0" ++ toString k
  else toString k

/-! ## Attendance (`useAttendance`)

`clockIn`/`clockOut` are the local (database-not-connected) branches;
`markAttendance` has a single branch. A JS `Date` is modelled as a calendar
day index together with the milliseconds elapsed in that day, so
`toDateString()` equality is day equality and `getTime()` is derived. -/

structure Instant where
  day : Nat
  msOfDay : ℚ
  deriving DecidableEq

/-- JS `date.getTime()` in milliseconds. -/
def Instant.getTime (i : Instant) : ℚ :=
  (i.day : ℚ) * 86400000 + i.msOfDay

inductive AttendanceStatus where
  | present
  | absent
  | late
  | half_day
  | on_leave
  deriving DecidableEq

structure AttendanceSettings where
  workingHoursPerDay : ℚ
  workingDaysPerWeek : ℚ
  lateThresholdMinutes : ℚ
  halfDayThresholdHours : ℚ
  overtimeThresholdHours : ℚ
  allowEarlyClockIn : Bool
  allowLateClockOut : Bool
  requireLocationTracking : Bool
  autoClockOutTime : String
  deriving DecidableEq

def defaultAttendanceSettings : AttendanceSettings :=
  { workingHoursPerDay := 8
    workingDaysPerWeek := 6
    lateThresholdMinutes := 15
    halfDayThresholdHours := 4
    overtimeThresholdHours := 8
    allowEarlyClockIn := true
    allowLateClockOut := true
    requireLocationTracking := false
    autoClockOutTime := "20:00" }

structure AttendanceRecord where
  id : String
  userId : String
  date : Nat
  clockInTime : Option Instant
  clockOutTime : Option Instant
  breakTime : Option ℚ
  totalHours : Option ℚ
  overtime : Option ℚ
  status : AttendanceStatus
  location : Option String
  notes : Option String
  deriving DecidableEq

/-- `generateAttendanceId` from `useAttendance`. -/
def generateAttendanceId (records : List AttendanceRecord) : String :=
  "ATT" ++ padStart (toString (records.length + 1)) 3 '0'

/-- `clockIn` (local branch): refuse only when the first record found for
(user, today) already has a clock-in time; otherwise append a fresh record,
marked late past 9:00 plus the late threshold. -/
def clockIn (user : User) (now : Instant) (settings : AttendanceSettings)
    (location notes : Option String) (records : List AttendanceRecord) :
    Except String (AttendanceRecord × List AttendanceRecord) :=
  let today := now.day
  let existingRecord := records.find? fun record =>
    record.userId == user.id && record.date == today
  if (existingRecord.map (·.clockInTime)).getD none |>.isSome then
    .error "Already clocked in today"
  else
    let expectedStartMs : ℚ := (today : ℚ) * 86400000 + 9 * 3600000
    let isLate :=
      decide (now.getTime > expectedStartMs + settings.lateThresholdMinutes * 60000)
    let newRecord : AttendanceRecord :=
      { id := generateAttendanceId records
        userId := user.id
        date := today
        clockInTime := some now
        clockOutTime := none
        breakTime := none
        totalHours := none
        overtime := none
        status := if isLate then .late else .present
        location := location
        notes := notes }
    .ok (newRecord, records ++ [newRecord])

/-- `clockOut` (local branch, `useAttendance` lines 450-491): find today's
open record, round the raw elapsed hours to two decimals, subtract the break
(`breakTime || 60` minutes), clamp overtime at zero, and write the record
back by id. -/
def clockOut (user : User) (now : Instant) (settings : AttendanceSettings)
    (notes : Option String) (records : List AttendanceRecord) :
    Except String (AttendanceRecord × List AttendanceRecord) :=
  let today := now.day
  match records.find? (fun record =>
      record.userId == user.id && record.date == today &&
      record.clockInTime.isSome && record.clockOutTime.isNone) with
  | none => .error "No active clock-in found for today"
  | some existingRecord =>
    let clockInT := existingRecord.clockInTime.getD ⟨0, 0⟩
    let totalMinutes := (now.getTime - clockInT.getTime) / (1000 * 60)
    let totalHours := jsRound2 (totalMinutes / 60)
    let breakTime := jsOrNum existingRecord.breakTime 60
    let workingHours := totalHours - breakTime / 60
    let overtime := max 0 (workingHours - settings.workingHoursPerDay)
    let updatedRecord : AttendanceRecord :=
      { existingRecord with
        clockOutTime := some now
        totalHours := some workingHours
        overtime := some overtime
        notes := jsOrOptStr notes existingRecord.notes }
    .ok (updatedRecord, records.map fun record =>
      if record.id == existingRecord.id then updatedRecord else record)

/-- `markAttendance` (`useAttendance` lines 547-596): update the status of an
existing (user, date) record in place, or append a record with no clock-in. -/
def markAttendance (userId : String) (date : Nat) (status : AttendanceStatus)
    (notes : Option String) (records : List AttendanceRecord) :
    AttendanceRecord × List AttendanceRecord :=
  let existingRecord := records.find? fun record =>
    record.userId == userId && record.date == date
  match existingRecord with
  | some record =>
    let updatedRecord := { record with status := status, notes := notes }
    (updatedRecord, records.map fun r =>
      if r.id == record.id then updatedRecord else r)
  | none =>
    let newRecord : AttendanceRecord :=
      { id := generateAttendanceId records
        userId := userId
        date := date
        clockInTime := none
        clockOutTime := none
        breakTime := none
        totalHours := none
        overtime := none
        status := status
        location := none
        notes := notes }
    (newRecord, records ++ [newRecord])

/-- At most one attendance record per (user, calendar date). -/
def uniquePerUserDay (records : List AttendanceRecord) : Prop :=
  records.Pairwise fun a b => (a.userId, a.date) ≠ (b.userId, b.date)

instance : DecidablePred uniquePerUserDay := fun records =>
  List.instDecidablePairwise records

/-! ## Database gateway (`databaseService.ts`) -/

structure DatabaseConfig where
  host : String
  port : Nat
  database : String
  username : String
  password : String
  ssl : String
  deriving DecidableEq

structure QueryResult where
  success : Bool
  data : Option (List String) := none
  error : Option String := none
  affectedRows : Option Nat := none
  deriving DecidableEq

/-- Outcome of the single `fetch` to `/api/db-query.php`: the promise chain
rejects (network failure, or a body that fails to read/parse inside the
`try`), the response is non-ok with an error text, or it is ok with a parsed
`QueryResult` body. -/
inductive FetchOutcome where
  | reject (msg : String)
  | httpError (body : String)
  | ok (body : QueryResult)
  deriving DecidableEq

/-- Result of `DatabaseService.query` together with how many network calls
it performed. -/
structure QueryCall where
  result : QueryResult
  networkCalls : Nat
  deriving DecidableEq

/-- `DatabaseService.query` (lines 66-102): bail out before any network call
when disconnected or unconfigured; otherwise one fetch, every failure mapped
to `success := false` with an error message, and an ok response passed
through as-is. -/
def DatabaseService.query (isConnected : Bool) (config : Option DatabaseConfig)
    (net : FetchOutcome) (sql : String) (params : List String) : QueryCall :=
  if !isConnected || config.isNone then
    { result := { success := false, error := some "Database not connected" }
      networkCalls := 0 }
  else
    match net with
    | .reject msg =>
      { result := { success := false, error := some msg }, networkCalls := 1 }
    | .httpError body =>
      { result := { success := false, error := some ("Query failed: " ++ body) }
        networkCalls := 1 }
    | .ok body => { result := body, networkCalls := 1 }

end OmApp

namespace OmApp

/-- Sum of a mapped amount as a left fold, as the source's `reduce` computes it. -/
theorem foldl_add_amount_eq_sum {α : Type} (f : α → ℚ) (l : List α) :
    l.foldl (fun sum a => sum + f a) 0 = (l.map f).sum := by
  rw [List.sum_eq_foldl, List.foldl_map]

/-- C1: for every StaffSalaryConfig with non-negative base salary, allowances,
deductions, overtime hours, overtime rate and bonus, `calculateSalary` returns
`gross = base + Σ allowances + h * r + bonus` and `net = gross - Σ deductions`. -/
theorem calculateSalary_correct (config : StaffSalaryConfig) (h b : ℚ)
    (hbase : 0 ≤ config.baseSalary)
    (hA : ∀ a ∈ config.allowances, 0 ≤ a.amount)
    (hD : ∀ d ∈ config.deductions, 0 ≤ d.amount)
    (hh : 0 ≤ h) (hr : 0 ≤ config.overtimeRate) (hb : 0 ≤ b) :
    (calculateSalary config h b).gross =
      config.baseSalary + (config.allowances.map (·.amount)).sum +
        h * config.overtimeRate + b ∧
    (calculateSalary config h b).net =
      (calculateSalary config h b).gross -
        (config.deductions.map (·.amount)).sum := by
  refine ⟨?_, ?_⟩ <;> simp [calculateSalary, foldl_add_amount_eq_sum]

/-- Witness for C1 at a concrete configuration. -/
theorem calculateSalary_correct_witness :
    (calculateSalary
        { id := "SC1", userId := "1", baseSalary := 30000
          allowances := [⟨"A1", 2000⟩, ⟨"A2", 500⟩]
          deductions := [⟨"D1", 1200⟩]
          overtimeRate := 150, isActive := true } 10 1000).gross =
      30000 + (2000 + (500 + 0)) + 10 * 150 + 1000 ∧
    (calculateSalary
        { id := "SC1", userId := "1", baseSalary := 30000
          allowances := [⟨"A1", 2000⟩, ⟨"A2", 500⟩]
          deductions := [⟨"D1", 1200⟩]
          overtimeRate := 150, isActive := true } 10 1000).net =
      (calculateSalary
        { id := "SC1", userId := "1", baseSalary := 30000
          allowances := [⟨"A1", 2000⟩, ⟨"A2", 500⟩]
          deductions := [⟨"D1", 1200⟩]
          overtimeRate := 150, isActive := true } 10 1000).gross - (1200 + 0) := by
  have := calculateSalary_correct
    { id := "SC1", userId := "1", baseSalary := 30000
      allowances := [⟨"A1", 2000⟩, ⟨"A2", 500⟩]
      deductions := [⟨"D1", 1200⟩]
      overtimeRate := 150, isActive := true } 10 1000
    (by norm_num) (by decide) (by decide) (by norm_num) (by norm_num) (by norm_num)
  simpa using this

/-- C5: `hasPermission` is unconditionally true for a signed-in `main_admin`,
and for any other role it is true exactly when an entry with the exact module,
action and `granted = true` exists in the user's permission list. -/
theorem hasPermission_spec (u : User) (module action : String) :
    (u.role = UserRole.main_admin → hasPermission (some u) module action = true) ∧
    (u.role ≠ UserRole.main_admin →
      (hasPermission (some u) module action = true ↔
        ∃ p ∈ u.permissions,
          p.module = module ∧ p.action = action ∧ p.granted = true)) := by
  constructor
  · intro hrole
    simp [hasPermission, hrole]
  · intro hrole
    simp [hasPermission, hrole, List.any_eq_true, and_assoc]

/-- `find?` commutes with a map that does not change the predicate's verdict. -/
theorem find?_map_of_pred {α : Type} (f : α → α) (p : α → Bool)
    (hp : ∀ x, p (f x) = p x) (l : List α) :
    (l.map f).find? p = (l.find? p).map f := by
  induction l with
  | nil => rfl
  | cons a l ih =>
    simp only [List.map_cons, List.find?_cons, hp a]
    cases p a <;> simp [ih]

/-- C8: `DatabaseService.query` performs at most one network call, reports
the disconnected/unconfigured case as `success = false` with an error message
and no network call, maps a rejected fetch and a non-ok response to
`success = false` with an error message, and passes a server-reported failure
body through unchanged. -/
theorem query_failsafe (isConnected : Bool) (config : Option DatabaseConfig)
    (net : FetchOutcome) (sql : String) (params : List String) :
    (DatabaseService.query isConnected config net sql params).networkCalls ≤ 1 ∧
    (isConnected = false ∨ config = none →
      (DatabaseService.query isConnected config net sql params).result.success
          = false ∧
      (DatabaseService.query isConnected config net sql params).result.error.isSome ∧
      (DatabaseService.query isConnected config net sql params).networkCalls = 0) ∧
    (∀ msg, net = FetchOutcome.reject msg →
      (DatabaseService.query isConnected config net sql params).result.success
          = false ∧
      (DatabaseService.query isConnected config net sql params).result.error.isSome) ∧
    (∀ body, net = FetchOutcome.httpError body →
      (DatabaseService.query isConnected config net sql params).result.success
          = false ∧
      (DatabaseService.query isConnected config net sql params).result.error.isSome) ∧
    (∀ r, net = FetchOutcome.ok r → r.success = false → r.error.isSome →
      (DatabaseService.query isConnected config net sql params).result.success
          = false ∧
      (DatabaseService.query isConnected config net sql params).result.error.isSome) := by
  cases isConnected <;> cases config <;> cases net <;>
    simp [DatabaseService.query] <;> exact fun h1 h2 => ⟨h1, h2⟩

/-- Witness for C8: a rejected fetch on a connected service yields a failure
result after exactly one call; the disconnected service makes no call. -/
theorem query_failsafe_witness :
    (DatabaseService.query true
        (some ⟨"localhost", 3306, "om", "root", "pw", "DISABLED"⟩)
        (FetchOutcome.reject "network down") "SELECT 1" []).result.success
        = false ∧
    (DatabaseService.query true
        (some ⟨"localhost", 3306, "om", "root", "pw", "DISABLED"⟩)
        (FetchOutcome.reject "network down") "SELECT 1" []).networkCalls ≤ 1 ∧
    (DatabaseService.query false none
        (FetchOutcome.ok { success := true }) "SELECT 1" []).networkCalls = 0 := by
  refine ⟨?_, ?_, ?_⟩
  · exact ((query_failsafe true
      (some ⟨"localhost", 3306, "om", "root", "pw", "DISABLED"⟩)
      (FetchOutcome.reject "network down") "SELECT 1" []).2.2.1
      "network down" rfl).1
  · exact (query_failsafe true
      (some ⟨"localhost", 3306, "om", "root", "pw", "DISABLED"⟩)
      (FetchOutcome.reject "network down") "SELECT 1" []).1
  · exact ((query_failsafe false none
      (FetchOutcome.ok { success := true }) "SELECT 1" []).2.1
      (Or.inl rfl)).2.2

/-- C9: `updateStatus` accepts any target status from any current status:
for a document present in the store it always succeeds, afterwards every
record with that id carries the new status, and the store keeps its size. -/
theorem updateStatus_unrestricted (documents : List Document) (id : String)
    (doc : Document) (s2 : DocumentStatus)
    (hdoc : getDocument id documents = some doc) :
    (updateStatus id s2 documents).length = documents.length ∧
    (∀ d ∈ updateStatus id s2 documents, d.id = id → d.status = s2) ∧
    (∃ d', getDocument id (updateStatus id s2 documents) = some d' ∧
      d'.status = s2) := by
  refine ⟨by simp [updateStatus], ?_, ?_⟩
  · intro d hd hdid
    obtain ⟨x, hx, rfl⟩ := List.mem_map.mp hd
    by_cases hxid : x.id == id
    · simp [hxid]
    · simp only [hxid, if_neg, Bool.false_eq_true, if_false] at hdid ⊢
      exact absurd (beq_iff_eq.mpr hdid) (by simp_all)
  · have hmap := find?_map_of_pred
      (fun doc => if doc.id == id then { doc with status := s2 } else doc)
      (fun doc => doc.id == id)
      (fun x => by by_cases h : x.id == id <;> simp [h]) documents
    have hdoc' : documents.find? (fun d => d.id == id) = some doc := hdoc
    have hbeq : (doc.id == id) = true := by
      have := List.find?_some hdoc'
      simpa using this
    refine ⟨{ doc with status := s2 }, ?_, rfl⟩
    unfold getDocument
    rw [updateStatus, hmap, hdoc']
    simp only [Option.map]
    simp [hbeq, beq_iff_eq.mp hbeq]

/-- Witness for C9: a delivered document can be moved back to
`pending_collection`. -/
theorem updateStatus_unrestricted_witness :
    (∃ d', getDocument "1"
        (updateStatus "1" DocumentStatus.pending_collection
          [{ id := "1", documentNumber := "AGREEMENT/2025/001",
             customerName := "X", customerPhone := "9", customerEmail := none,
             builderName := "Y", propertyDetails := "",
             documentType := DocumentType.agreement,
             status := DocumentStatus.delivered, assignedTo := none,
             createdAtYear := 2025 }]) = some d' ∧
      d'.status = DocumentStatus.pending_collection) := by
  exact (updateStatus_unrestricted
    [{ id := "1", documentNumber := "AGREEMENT/2025/001",
       customerName := "X", customerPhone := "9", customerEmail := none,
       builderName := "Y", propertyDetails := "",
       documentType := DocumentType.agreement,
       status := DocumentStatus.delivered, assignedTo := none,
       createdAtYear := 2025 }] "1"
    { id := "1", documentNumber := "AGREEMENT/2025/001",
      customerName := "X", customerPhone := "9", customerEmail := none,
      builderName := "Y", propertyDetails := "",
      documentType := DocumentType.agreement,
      status := DocumentStatus.delivered, assignedTo := none,
      createdAtYear := 2025 }
    DocumentStatus.pending_collection (by decide)).2.2

/-- C10: `addDocumentToCustomer` and `addDocumentToBuilder` are idempotent:
an id already in the party's `documents` list leaves the store unchanged, an
absent id is appended exactly once, and no duplicate-free `documents` list
ever acquires a duplicate. -/
theorem addDocument_idempotent (customers : List Customer)
    (builders : List Builder) (cid bid did : String) :
    (∀ c, getCustomer cid customers = some c → did ∈ c.documents →
      addDocumentToCustomer cid did customers = customers) ∧
    (∀ c, getCustomer cid customers = some c → did ∉ c.documents →
      ∃ c' ∈ addDocumentToCustomer cid did customers,
        c'.id = c.id ∧ c'.documents = c.documents ++ [did] ∧
        c'.documents.count did = 1) ∧
    ((∀ c ∈ customers, c.documents.Nodup) →
      ∀ c' ∈ addDocumentToCustomer cid did customers, c'.documents.Nodup) ∧
    (∀ b, getBuilder bid builders = some b → did ∈ b.documents →
      addDocumentToBuilder bid did builders = builders) ∧
    (∀ b, getBuilder bid builders = some b → did ∉ b.documents →
      ∃ b' ∈ addDocumentToBuilder bid did builders,
        b'.id = b.id ∧ b'.documents = b.documents ++ [did] ∧
        b'.documents.count did = 1) ∧
    ((∀ b ∈ builders, b.documents.Nodup) →
      ∀ b' ∈ addDocumentToBuilder bid did builders, b'.documents.Nodup) := by
  refine ⟨?_, ?_, ?_, ?_, ?_, ?_⟩
  · intro c hc hdid
    unfold addDocumentToCustomer
    rw [hc]
    simp [hdid]
  · intro c hc hdid
    have hcmem : c ∈ customers := List.mem_of_find?_eq_some hc
    have hcid : (c.id == cid) = true := by
      have := List.find?_some hc
      simpa using this
    unfold addDocumentToCustomer
    rw [hc]
    simp only [hdid, if_neg, if_false]
    refine ⟨{ c with documents := c.documents ++ [did] }, ?_, rfl, rfl, ?_⟩
    · have : (fun x => if x.id == cid
          then { x with documents := c.documents ++ [did] } else x) c
          = { c with documents := c.documents ++ [did] } := by simp [hcid]
      exact this ▸ List.mem_map_of_mem _ hcmem
    · simp [List.count_append, List.count_eq_zero.mpr hdid]
  · intro hnodup c' hc'
    unfold addDocumentToCustomer at hc'
    cases hfind : getCustomer cid customers with
    | none => rw [hfind] at hc'; exact hnodup c' hc'
    | some c =>
      rw [hfind] at hc'
      dsimp only at hc'
      by_cases hdid : did ∈ c.documents
      · rw [if_pos hdid] at hc'
        exact hnodup c' hc'
      · rw [if_neg hdid] at hc'
        obtain ⟨x, hx, rfl⟩ := List.mem_map.mp hc'
        by_cases hxid : (x.id == cid) = true
        · have hcmem : c ∈ customers := List.mem_of_find?_eq_some hfind
          simp only [hxid, if_true, if_pos]
          simpa [List.nodup_append] using ⟨hnodup c hcmem, hdid⟩
        · simp only [hxid, Bool.false_eq_true, if_false, if_neg]
          exact hnodup x hx
  · intro b hb hdid
    unfold addDocumentToBuilder
    rw [hb]
    simp [hdid]
  · intro b hb hdid
    have hbmem : b ∈ builders := List.mem_of_find?_eq_some hb
    have hbid : (b.id == bid) = true := by
      have := List.find?_some hb
      simpa using this
    unfold addDocumentToBuilder
    rw [hb]
    simp only [hdid, if_neg, if_false]
    refine ⟨{ b with documents := b.documents ++ [did] }, ?_, rfl, rfl, ?_⟩
    · have : (fun x => if x.id == bid
          then { x with documents := b.documents ++ [did] } else x) b
          = { b with documents := b.documents ++ [did] } := by simp [hbid]
      exact this ▸ List.mem_map_of_mem _ hbmem
    · simp [List.count_append, List.count_eq_zero.mpr hdid]
  · intro hnodup b' hb'
    unfold addDocumentToBuilder at hb'
    cases hfind : getBuilder bid builders with
    | none => rw [hfind] at hb'; exact hnodup b' hb'
    | some b =>
      rw [hfind] at hb'
      dsimp only at hb'
      by_cases hdid : did ∈ b.documents
      · rw [if_pos hdid] at hb'
        exact hnodup b' hb'
      · rw [if_neg hdid] at hb'
        obtain ⟨x, hx, rfl⟩ := List.mem_map.mp hb'
        by_cases hxid : (x.id == bid) = true
        · have hbmem : b ∈ builders := List.mem_of_find?_eq_some hfind
          simp only [hxid, if_true, if_pos]
          simpa [List.nodup_append] using ⟨hnodup b hbmem, hdid⟩
        · simp only [hxid, Bool.false_eq_true, if_false, if_neg]
          exact hnodup x hx

/-- Witness for C10: on a one-customer/one-builder store, re-adding the
stored document id changes nothing, and a fresh id is appended once. -/
theorem addDocument_idempotent_witness :
    addDocumentToCustomer "CUST001" "DOC1"
        [{ id := "CUST001", name := "A", phone := "123", email := none,
           address := "", documents := ["DOC1"] }] =
      [{ id := "CUST001", name := "A", phone := "123", email := none,
         address := "", documents := ["DOC1"] }] ∧
    (∃ c' ∈ addDocumentToCustomer "CUST001" "DOC2"
        [{ id := "CUST001", name := "A", phone := "123", email := none,
           address := "", documents := ["DOC1"] }],
      c'.id = "CUST001" ∧ c'.documents = ["DOC1"] ++ ["DOC2"] ∧
        c'.documents.count "DOC2" = 1) ∧
    (∃ b' ∈ addDocumentToBuilder "BLD001" "DOC2"
        [{ id := "BLD001", name := "B", contactPerson := "P", phone := "",
           email := none, address := "", registrationNumber := none,
           documents := ["DOC1"] }],
      b'.id = "BLD001" ∧ b'.documents = ["DOC1"] ++ ["DOC2"] ∧
        b'.documents.count "DOC2" = 1) := by
  refine ⟨?_, ?_, ?_⟩
  · exact (addDocument_idempotent
      [{ id := "CUST001", name := "A", phone := "123", email := none,
         address := "", documents := ["DOC1"] }] [] "CUST001" "" "DOC1").1
      { id := "CUST001", name := "A", phone := "123", email := none,
        address := "", documents := ["DOC1"] } (by decide) (by decide)
  · exact (addDocument_idempotent
      [{ id := "CUST001", name := "A", phone := "123", email := none,
         address := "", documents := ["DOC1"] }] [] "CUST001" "" "DOC2").2.1
      { id := "CUST001", name := "A", phone := "123", email := none,
        address := "", documents := ["DOC1"] } (by decide) (by decide)
  · exact (addDocument_idempotent []
      [{ id := "BLD001", name := "B", contactPerson := "P", phone := "",
         email := none, address := "", registrationNumber := none,
         documents := ["DOC1"] }] "" "BLD001" "DOC2").2.2.2.2.1
      { id := "BLD001", name := "B", contactPerson := "P", phone := "",
        email := none, address := "", registrationNumber := none,
        documents := ["DOC1"] } (by decide) (by decide)

/-- C2 counterexample: the generated sequence number counts every stored
document of the type, not only those created in the current year. With one
agreement from 2025 in the store and none from 2026, the claim predicts
`AGREEMENT/2026/001` but the code produces `AGREEMENT/2026/002`. -/
theorem generateDocumentNumber_year_cex :
    ((([{ id := "1", documentNumber := "AGREEMENT/2025/001",
          customerName := "X", customerPhone := "9", customerEmail := none,
          builderName := "Y", propertyDetails := "",
          documentType := DocumentType.agreement,
          status := DocumentStatus.delivered, assignedTo := none,
          createdAtYear := 2025 }] : List Document).filter fun d =>
        d.documentType == DocumentType.agreement &&
          d.createdAtYear == 2026).length = 0) ∧
    generateDocumentNumber DocumentType.agreement 2026
        [{ id := "1", documentNumber := "AGREEMENT/2025/001",
           customerName := "X", customerPhone := "9", customerEmail := none,
           builderName := "Y", propertyDetails := "",
           documentType := DocumentType.agreement,
           status := DocumentStatus.delivered, assignedTo := none,
           createdAtYear := 2025 }] ≠ "AGREEMENT/2026/001" ∧
    generateDocumentNumber DocumentType.agreement 2026
        [{ id := "1", documentNumber := "AGREEMENT/2025/001",
           customerName := "X", customerPhone := "9", customerEmail := none,
           builderName := "Y", propertyDetails := "",
           documentType := DocumentType.agreement,
           status := DocumentStatus.delivered, assignedTo := none,
           createdAtYear := 2025 }] = "AGREEMENT/2026/002" := by
  refine ⟨by decide, by decide, by decide⟩

set_option maxRecDepth 10000 in
/-- `padStart` over a decimal numeral agrees with the three-digit spec
padding for every sequence number below 1000. -/
theorem padStart_eq_pad3Spec : ∀ k, k < 1000 →
    padStart (toString k) 3 '0' = pad3Spec k := by decide

/-- C2 (amended): with `n` the number of stored documents of type `T`
regardless of creation year, the generated number is
`{T_PREFIX}/{Y}/{n+1 zero-padded to 3 digits}` as long as the sequence has
not outgrown three digits. -/
theorem generateDocumentNumber_formula (T : DocumentType) (year : Nat)
    (docs : List Document)
    (hcount : (docs.filter fun d => d.documentType == T).length + 1 ≤ 999) :
    generateDocumentNumber T year docs =
      docTypeTagSpec T ++ "/" ++ toString year ++ "/" ++
        pad3Spec ((docs.filter fun d => d.documentType == T).length + 1) := by
  have htag : jsStripFirstUnderscore (jsToUpperCase (DocumentType.code T))
      = docTypeTagSpec T := by cases T <;> decide
  have hpad := padStart_eq_pad3Spec
    ((docs.filter fun d => d.documentType == T).length + 1)
    (Nat.lt_of_le_of_lt hcount (by norm_num))
  unfold generateDocumentNumber
  dsimp only
  rw [htag, hpad]

/-- Witness for C2 (amended) on an empty store. -/
theorem generateDocumentNumber_formula_witness :
    generateDocumentNumber DocumentType.sale_deed 2026 [] =
      "SALEDEED" ++ "/" ++ toString 2026 ++ "/" ++ pad3Spec 1 := by
  exact generateDocumentNumber_formula DocumentType.sale_deed 2026 []
    (by decide)

/-- C6 counterexample: the stored `totalHours` is the elapsed hours rounded
to two decimals before the break is subtracted, not the exact
`(t1-t0)/3600 - br/60`: 10000 elapsed seconds with a 60-minute break yield
`1.78`, not `25/9 - 1`. A zero `breakTime` also falls back to 60 minutes
(`breakTime || 60`), so the claim fails for `br = 0` as well. -/
theorem clockOut_rounding_cex :
    ((clockOut mockChallanStaff ⟨0, 10000000⟩ defaultAttendanceSettings none
        [{ id := "ATT001", userId := "2", date := 0,
           clockInTime := some ⟨0, 0⟩, clockOutTime := none,
           breakTime := some 60, totalHours := none, overtime := none,
           status := AttendanceStatus.present, location := none,
           notes := none }]).toOption.map fun p => p.1.totalHours) =
      some (some (89 / 50 : ℚ)) ∧
    ((89 : ℚ) / 50 ≠ (10000 : ℚ) / 3600 - 60 / 60) ∧
    ((clockOut mockChallanStaff ⟨0, 10000000⟩ defaultAttendanceSettings none
        [{ id := "ATT001", userId := "2", date := 0,
           clockInTime := some ⟨0, 0⟩, clockOutTime := none,
           breakTime := some 0, totalHours := none, overtime := none,
           status := AttendanceStatus.present, location := none,
           notes := none }]).toOption.map fun p => p.1.totalHours) =
      some (some (89 / 50 : ℚ)) ∧
    ((89 : ℚ) / 50 ≠ (10000 : ℚ) / 3600 - 0 / 60) := by
  refine ⟨?_, by norm_num, ?_, by norm_num⟩ <;>
  · simp only [clockOut, mockChallanStaff, List.find?, Instant.getTime,
      jsOrNum, jsRound2, jsOrOptStr, Except.toOption, Option.getD]
    norm_num

/-- C6 (amended): for the record `clockOut` finds (clock-in `t0`, non-zero
break time `br` minutes), clocking out at `t1` stores
`totalHours = round2((t1-t0)/3600) - br/60` (times in seconds, elapsed hours
rounded to two decimals) and `overtime = max(0, totalHours -
workingHoursPerDay)`. -/
theorem clockOut_hours_formula (user : User) (now : Instant)
    (settings : AttendanceSettings) (notes : Option String)
    (records : List AttendanceRecord) (r : AttendanceRecord) (t0 : Instant)
    (br : ℚ)
    (hfind : records.find? (fun record =>
        record.userId == user.id && record.date == now.day &&
        record.clockInTime.isSome && record.clockOutTime.isNone) = some r)
    (ht0 : r.clockInTime = some t0)
    (hbr : r.breakTime = some br) (hbrne : br ≠ 0) :
    ∃ r' l', clockOut user now settings notes records = .ok (r', l') ∧
      r'.totalHours =
        some (jsRound2 ((now.getTime - t0.getTime) / 1000 / 3600) - br / 60) ∧
      r'.overtime =
        some (max 0 (jsRound2 ((now.getTime - t0.getTime) / 1000 / 3600) -
          br / 60 - settings.workingHoursPerDay)) := by
  have harg : (now.getTime - t0.getTime) / (1000 * 60) / 60
      = (now.getTime - t0.getTime) / 1000 / 3600 := by
    rw [div_div, div_div]
    norm_num
  unfold clockOut
  dsimp only
  rw [hfind]
  dsimp only
  rw [ht0, hbr]
  simp only [Option.getD_some, jsOrNum, hbrne, if_neg, if_false]
  exact ⟨_, _, rfl, by rw [harg], by rw [harg, sub_sub]⟩

/-- Witness for C6 (amended): one-hour stay with a 30-minute break stores
half an hour and no overtime. -/
theorem clockOut_hours_formula_witness :
    ∃ r' l', clockOut mockChallanStaff ⟨0, 3600000⟩ defaultAttendanceSettings
        none
        [{ id := "ATT001", userId := "2", date := 0,
           clockInTime := some ⟨0, 0⟩, clockOutTime := none,
           breakTime := some 30, totalHours := none, overtime := none,
           status := AttendanceStatus.present, location := none,
           notes := none }] = .ok (r', l') ∧
      r'.totalHours =
        some (jsRound2 (((⟨0, 3600000⟩ : Instant).getTime -
          (⟨0, 0⟩ : Instant).getTime) / 1000 / 3600) - 30 / 60) ∧
      r'.overtime =
        some (max 0 (jsRound2 (((⟨0, 3600000⟩ : Instant).getTime -
          (⟨0, 0⟩ : Instant).getTime) / 1000 / 3600) - 30 / 60 -
          defaultAttendanceSettings.workingHoursPerDay)) := by
  exact clockOut_hours_formula mockChallanStaff ⟨0, 3600000⟩
    defaultAttendanceSettings none
    [{ id := "ATT001", userId := "2", date := 0,
       clockInTime := some ⟨0, 0⟩, clockOutTime := none,
       breakTime := some 30, totalHours := none, overtime := none,
       status := AttendanceStatus.present, location := none,
       notes := none }]
    { id := "ATT001", userId := "2", date := 0,
      clockInTime := some ⟨0, 0⟩, clockOutTime := none,
      breakTime := some 30, totalHours := none, overtime := none,
      status := AttendanceStatus.present, location := none,
      notes := none }
    ⟨0, 0⟩ 30 (by decide) rfl rfl (by norm_num)

/-- Mapping a list with a key-preserving function keeps keys pairwise
distinct. -/
theorem pairwise_key_ne_map {α β : Type} (k : α → β) (f : α → α) (l : List α)
    (hf : ∀ x ∈ l, k (f x) = k x) (h : l.Pairwise fun a b => k a ≠ k b) :
    (l.map f).Pairwise fun a b => k a ≠ k b := by
  induction l with
  | nil => simp
  | cons a l ih =>
    rw [List.pairwise_cons] at h
    rw [List.map_cons, List.pairwise_cons]
    refine ⟨?_, ih (fun x hx => hf x (List.mem_cons_of_mem _ hx)) h.2⟩
    intro b hb
    obtain ⟨x, hx, rfl⟩ := List.mem_map.mp hb
    rw [hf x (List.mem_cons_of_mem _ hx), hf a (List.mem_cons_self _ _)]
    exact h.1 x hx

/-- Appending an element with a fresh key keeps keys pairwise distinct. -/
theorem pairwise_key_ne_append_single {α β : Type} (k : α → β) (l : List α)
    (x : α) (h : l.Pairwise fun a b => k a ≠ k b)
    (hx : ∀ y ∈ l, k y ≠ k x) :
    (l ++ [x]).Pairwise fun a b => k a ≠ k b := by
  rw [List.pairwise_append]
  exact ⟨h, List.pairwise_singleton _ _, fun y hy z hz => by
    rw [List.mem_singleton] at hz
    exact hz ▸ hx y hy⟩

/-- In a store with pairwise-distinct ids, equal ids mean equal records. -/
theorem attendance_eq_of_id_eq {l : List AttendanceRecord}
    (h : (l.map (·.id)).Nodup) {x y : AttendanceRecord}
    (hx : x ∈ l) (hy : y ∈ l) (hxy : x.id = y.id) : x = y :=
  List.inj_on_of_nodup_map h hx hy hxy

/-- C7 counterexample: from the empty store (which satisfies the invariant),
`markAttendance` creates a record without a clock-in time, and a following
`clockIn` for the same user on the same day does not find a clock-in time,
so it appends a second record for the same (user, date). -/
theorem attendance_unique_cex :
    uniquePerUserDay (markAttendance "2" 0 AttendanceStatus.absent none []).2 ∧
    (∃ rec l2,
      clockIn mockChallanStaff ⟨0, 36000000⟩ defaultAttendanceSettings
          none none (markAttendance "2" 0 AttendanceStatus.absent none []).2 =
        .ok (rec, l2) ∧ ¬ uniquePerUserDay l2) := by
  have h1 : (markAttendance "2" 0 AttendanceStatus.absent none []).2 =
      [{ id := "ATT001", userId := "2", date := 0, clockInTime := none,
         clockOutTime := none, breakTime := none, totalHours := none,
         overtime := none, status := AttendanceStatus.absent,
         location := none, notes := none }] := by
    decide
  refine ⟨by rw [h1]; decide, ?_⟩
  rw [h1]
  have hlate : ((⟨0, 36000000⟩ : Instant).getTime >
      ((0 : Nat) : ℚ) * 86400000 + 9 * 3600000 +
        defaultAttendanceSettings.lateThresholdMinutes * 60000) := by
    norm_num [Instant.getTime, defaultAttendanceSettings]
  refine ⟨{ id := "ATT002", userId := "2", date := 0,
            clockInTime := some ⟨0, 36000000⟩, clockOutTime := none,
            breakTime := none, totalHours := none, overtime := none,
            status := AttendanceStatus.late, location := none,
            notes := none },
          [{ id := "ATT001", userId := "2", date := 0, clockInTime := none,
             clockOutTime := none, breakTime := none, totalHours := none,
             overtime := none, status := AttendanceStatus.absent,
             location := none, notes := none },
           { id := "ATT002", userId := "2", date := 0,
             clockInTime := some ⟨0, 36000000⟩, clockOutTime := none,
             breakTime := none, totalHours := none, overtime := none,
             status := AttendanceStatus.late, location := none,
             notes := none }], ?_, by decide⟩
  simp only [clockIn, mockChallanStaff, defaultAttendanceSettings,
    generateAttendanceId, padStart, List.find?, Instant.getTime]
  norm_num
  decide

/-- C7 (amended): assuming pairwise-distinct record ids, `markAttendance`
and `clockOut` preserve at-most-one-record-per-(user, date); `clockIn`
preserves it provided every record for (user, today) already carries a
clock-in time — a record without one (as `markAttendance` creates) makes
`clockIn` append a duplicate instead of refusing. -/
theorem attendance_ops_unique_per_user_day
    (records : List AttendanceRecord)
    (hids : (records.map (·.id)).Nodup)
    (huniq : uniquePerUserDay records)
    (u : User) (now : Instant) (settings : AttendanceSettings)
    (location notes notes2 : Option String)
    (uid : String) (d : Nat) (status : AttendanceStatus) :
    uniquePerUserDay (markAttendance uid d status notes2 records).2 ∧
    (∀ res l', clockOut u now settings notes records = .ok (res, l') →
      uniquePerUserDay l') ∧
    (∀ res l', clockIn u now settings location notes records = .ok (res, l') →
      (∀ x ∈ records, x.userId = u.id → x.date = now.day →
        x.clockInTime.isSome) →
      uniquePerUserDay l') := by
  refine ⟨?_, ?_, ?_⟩
  · unfold markAttendance
    cases hfind : records.find? (fun record =>
        record.userId == uid && record.date == d) with
    | some r =>
      dsimp only
      have hr : r ∈ records := List.mem_of_find?_eq_some hfind
      unfold uniquePerUserDay at huniq ⊢
      refine pairwise_key_ne_map
        (fun a : AttendanceRecord => (a.userId, a.date)) _ _ ?_ huniq
      intro x hx
      by_cases hxid : (x.id == r.id) = true
      · have hxr : x = r := attendance_eq_of_id_eq hids hx hr (by simpa using hxid)
        simp [hxid, hxr]
      · simp [hxid]
    | none =>
      dsimp only
      unfold uniquePerUserDay at huniq ⊢
      refine pairwise_key_ne_append_single
        (fun a : AttendanceRecord => (a.userId, a.date)) _ _ huniq ?_
      intro y hy
      have := List.find?_eq_none.mp hfind y hy
      simp only [Bool.and_eq_true, beq_iff_eq, not_and] at this
      intro hcontra
      rw [Prod.mk.injEq] at hcontra
      exact this hcontra.1 hcontra.2
  · intro res l' h
    unfold clockOut at h
    dsimp only at h
    cases hfind : records.find? (fun record =>
        record.userId == u.id && record.date == now.day &&
        record.clockInTime.isSome && record.clockOutTime.isNone) with
    | none => rw [hfind] at h; exact absurd h (by simp)
    | some r =>
      rw [hfind] at h
      dsimp only at h
      have hr : r ∈ records := List.mem_of_find?_eq_some hfind
      obtain ⟨-, hl'⟩ : res = _ ∧ _ = l' := by
        have := h
        injection this with h1
        injection h1 with h2 h3
        exact ⟨h2.symm, h3⟩
      subst hl'
      unfold uniquePerUserDay at huniq ⊢
      refine pairwise_key_ne_map
        (fun a : AttendanceRecord => (a.userId, a.date)) _ _ ?_ huniq
      intro x hx
      by_cases hxid : (x.id == r.id) = true
      · have hxr : x = r := attendance_eq_of_id_eq hids hx hr (by simpa using hxid)
        simp [hxid, hxr]
      · simp [hxid]
  · intro res l' h hall
    unfold clockIn at h
    dsimp only at h
    cases hfind : records.find? (fun record =>
        record.userId == u.id && record.date == now.day) with
    | some r =>
      rw [hfind] at h
      have hr : r ∈ records := List.mem_of_find?_eq_some hfind
      have hpred := List.find?_some hfind
      simp only [Bool.and_eq_true, beq_iff_eq] at hpred
      have hsome : r.clockInTime.isSome :=
        hall r hr hpred.1 hpred.2
      rw [if_pos (by simpa using hsome)] at h
      exact absurd h (by simp)
    | none =>
      rw [hfind] at h
      rw [if_neg (by simp)] at h
      obtain ⟨-, hl'⟩ : res = _ ∧ _ = l' := by
        injection h with h1
        injection h1 with h2 h3
        exact ⟨h2.symm, h3⟩
      subst hl'
      unfold uniquePerUserDay at huniq ⊢
      refine pairwise_key_ne_append_single
        (fun a : AttendanceRecord => (a.userId, a.date)) _ _ huniq ?_
      intro y hy
      have := List.find?_eq_none.mp hfind y hy
      simp only [Bool.and_eq_true, beq_iff_eq, not_and] at this
      intro hcontra
      rw [Prod.mk.injEq] at hcontra
      exact this hcontra.1 hcontra.2

/-- Witness for C7 (amended): marking attendance on the empty store keeps
the invariant, and clocking in on the empty store does too. -/
theorem attendance_ops_unique_witness :
    uniquePerUserDay
      (markAttendance "2" 0 AttendanceStatus.absent none []).2 ∧
    (∀ res l', clockIn mockChallanStaff ⟨0, 0⟩ defaultAttendanceSettings
        none none [] = .ok (res, l') → uniquePerUserDay l') := by
  have h := attendance_ops_unique_per_user_day [] (by decide) (by decide)
    mockChallanStaff ⟨0, 0⟩ defaultAttendanceSettings none none none
    "2" 0 AttendanceStatus.absent
  exact ⟨h.1, fun res l' hok => h.2.2 res l' hok (by simp)⟩

/-- C3: from empty stores in local mode, creating an agreement for customer
"A"/"123" and builder "B" yields document number `AGREEMENT/<year>/001`,
status `pending_collection`, exactly one customer ("A", "123") holding the
new document id, and exactly one builder ("B") holding it too. -/
theorem createDocument_end_to_end (y t : Nat) :
    (createDocument
        { customerName := some "A", customerPhone := some "123",
          builderName := some "B", documentType := DocumentType.agreement }
        y t ⟨[], [], []⟩).1.documentNumber =
      "AGREEMENT/" ++ toString y ++ "/001" ∧
    (createDocument
        { customerName := some "A", customerPhone := some "123",
          builderName := some "B", documentType := DocumentType.agreement }
        y t ⟨[], [], []⟩).1.status = DocumentStatus.pending_collection ∧
    (createDocument
        { customerName := some "A", customerPhone := some "123",
          builderName := some "B", documentType := DocumentType.agreement }
        y t ⟨[], [], []⟩).2.customers =
      [{ id := "CUST001", name := "A", phone := "123", email := none,
         address := "", documents := ["DOC" ++ toString t] }] ∧
    (createDocument
        { customerName := some "A", customerPhone := some "123",
          builderName := some "B", documentType := DocumentType.agreement }
        y t ⟨[], [], []⟩).2.builders =
      [{ id := "BLD001", name := "B", contactPerson := "Contact Person",
         phone := "+91 0000000000", email := none,
         address := "Address not provided", registrationNumber := none,
         documents := ["DOC" ++ toString t] }] := by
  refine ⟨?_, rfl, rfl, rfl⟩
  show jsStripFirstUnderscore (jsToUpperCase (DocumentType.code .agreement)) ++
      "/" ++ toString y ++ "/" ++ padStart (toString 1) 3 '0' =
    "AGREEMENT/" ++ toString y ++ "/001"
  have h1 : jsStripFirstUnderscore (jsToUpperCase (DocumentType.code .agreement))
      = "AGREEMENT" := by decide
  have h2 : padStart (toString 1) 3 '0' = "001" := by decide
  have h3 : ("AGREEMENT" : String) ++ "/" = "AGREEMENT/" := by decide
  have h4 : ("/" : String) ++ "001" = "/001" := by decide
  rw [h1, h2, String.append_assoc, h4, h3]

/-- Equal ids in a duplicate-free customer store mean equal records. -/
theorem customer_eq_of_id_eq {l : List Customer}
    (h : (l.map (·.id)).Nodup) {x y : Customer}
    (hx : x ∈ l) (hy : y ∈ l) (hxy : x.id = y.id) : x = y :=
  List.inj_on_of_nodup_map h hx hy hxy

/-- `addDocumentToCustomer` keeps the store's length and its phone column. -/
theorem addDocumentToCustomer_phones (cid did : String) (l : List Customer) :
    (addDocumentToCustomer cid did l).length = l.length ∧
    (addDocumentToCustomer cid did l).map (·.phone) = l.map (·.phone) := by
  unfold addDocumentToCustomer
  cases h : getCustomer cid l with
  | none => exact ⟨rfl, rfl⟩
  | some c =>
    dsimp only
    by_cases hdid : did ∈ c.documents
    · rw [if_pos hdid]; exact ⟨rfl, rfl⟩
    · rw [if_neg hdid]
      unfold updateCustomerDocuments
      refine ⟨by simp, ?_⟩
      rw [List.map_map]
      refine List.map_congr_left ?_
      intro x hx
      by_cases hxid : x.id = cid <;> simp [hxid]

/-- The customer list the local `createDocument` produces when the customer
name and phone are truthy: create a new linked customer on a missed phone
lookup, else push the document id onto the first phone match. -/
theorem createDocument_customers_eq (data : DocumentInput) (y t : Nat)
    (st : Store) (hname : data.customerName.getD "" ≠ "")
    (hphone : data.customerPhone.getD "" ≠ "") :
    (createDocument data y t st).2.customers =
      match getCustomerByPhone (data.customerPhone.getD "") st.customers with
      | none => st.customers ++
          [{ id := generateCustomerId st.customers
             name := data.customerName.getD ""
             phone := data.customerPhone.getD ""
             email := data.customerEmail
             address := data.propertyDetails.getD ""
             documents := [data.id.getD ("DOC" ++ toString t)] }]
      | some c =>
        addDocumentToCustomer c.id (data.id.getD ("DOC" ++ toString t))
          st.customers := by
  unfold createDocument
  dsimp only
  rw [if_pos ⟨hname, hphone⟩]
  cases getCustomerByPhone (data.customerPhone.getD "") st.customers <;> rfl

/-- Counting a phone through the phone column. -/
theorem countP_phone_eq_map (p : String) (l : List Customer) :
    l.countP (·.phone == p) = (l.map (·.phone)).countP (· == p) := by
  rw [List.countP_map]
  rfl

/-- C4: two consecutive local `createDocument` calls with the same non-empty
customer phone create at most one customer for that phone; the second call
creates no customer at all and appends the second document's id to the
existing customer's `documents` list (given distinct ids in the store after
the first call and a fresh second document id). -/
theorem createDocument_customer_link (st : Store) (d1 d2 : DocumentInput)
    (y1 y2 t1 t2 : Nat) (p : String) (hp : p ≠ "")
    (h1p : d1.customerPhone = some p) (h2p : d2.customerPhone = some p)
    (h1n : d1.customerName.getD "" ≠ "") (h2n : d2.customerName.getD "" ≠ "") :
    (createDocument d2 y2 t2
        (createDocument d1 y1 t1 st).2).2.customers.length =
      (createDocument d1 y1 t1 st).2.customers.length ∧
    (createDocument d2 y2 t2
        (createDocument d1 y1 t1 st).2).2.customers.countP (·.phone == p) =
      (createDocument d1 y1 t1 st).2.customers.countP (·.phone == p) ∧
    (createDocument d1 y1 t1 st).2.customers.countP (·.phone == p) ≤
      st.customers.countP (·.phone == p) + 1 ∧
    (∀ c₂, getCustomerByPhone p (createDocument d1 y1 t1 st).2.customers
        = some c₂ →
      ((createDocument d1 y1 t1 st).2.customers.map (·.id)).Nodup →
      d2.id.getD ("DOC" ++ toString t2) ∉ c₂.documents →
      ∃ c' ∈ (createDocument d2 y2 t2
          (createDocument d1 y1 t1 st).2).2.customers,
        c'.phone = p ∧
        c'.documents = c₂.documents ++ [d2.id.getD ("DOC" ++ toString t2)]) := by
  have hp1 : d1.customerPhone.getD "" = p := by rw [h1p]; rfl
  have hp2 : d2.customerPhone.getD "" = p := by rw [h2p]; rfl
  have hA := createDocument_customers_eq d1 y1 t1 st h1n (by rw [hp1]; exact hp)
  rw [hp1] at hA
  have hex : ∃ x ∈ (createDocument d1 y1 t1 st).2.customers, x.phone = p := by
    rw [hA]
    cases hfind : getCustomerByPhone p st.customers with
    | none =>
      exact ⟨_, List.mem_append_right _ (List.mem_singleton_self _), rfl⟩
    | some c =>
      have hcp : c.phone = p := by simpa using List.find?_some hfind
      have hcm : c ∈ st.customers := List.mem_of_find?_eq_some hfind
      have hmap := (addDocumentToCustomer_phones c.id
        (d1.id.getD ("DOC" ++ toString t1)) st.customers).2
      have hpin : p ∈ (addDocumentToCustomer c.id
          (d1.id.getD ("DOC" ++ toString t1)) st.customers).map (·.phone) := by
        rw [hmap]
        exact List.mem_map.mpr ⟨c, hcm, hcp⟩
      obtain ⟨x, hx, hxp⟩ := List.mem_map.mp hpin
      exact ⟨x, hx, hxp⟩
  have hsome : ∃ c₂, getCustomerByPhone p
      (createDocument d1 y1 t1 st).2.customers = some c₂ := by
    obtain ⟨x, hx, hxp⟩ := hex
    exact Option.isSome_iff_exists.mp
      (List.find?_isSome.mpr ⟨x, hx, by simp [hxp]⟩)
  obtain ⟨c₂, hc₂⟩ := hsome
  have hB := createDocument_customers_eq d2 y2 t2
    (createDocument d1 y1 t1 st).2 h2n (by rw [hp2]; exact hp)
  rw [hp2, hc₂] at hB
  dsimp only at hB
  refine ⟨?_, ?_, ?_, ?_⟩
  · rw [hB]
    exact (addDocumentToCustomer_phones _ _ _).1
  · rw [hB, countP_phone_eq_map, countP_phone_eq_map,
      (addDocumentToCustomer_phones _ _ _).2]
  · rw [hA]
    cases hfind : getCustomerByPhone p st.customers with
    | none =>
      dsimp only
      rw [List.countP_append]
      have hle : ∀ x : Customer, ([x].countP (·.phone == p)) ≤ 1 := by
        intro x
        by_cases hx : (x.phone == p) = true <;> simp [List.countP_cons, hx]
      exact Nat.add_le_add_left (hle _) _
    | some c =>
      dsimp only
      rw [countP_phone_eq_map, countP_phone_eq_map,
        (addDocumentToCustomer_phones _ _ _).2]
      exact Nat.le_succ _
  · intro c₂' hc₂' hnodup hfresh
    have hc₂eq : c₂' = c₂ := Option.some.inj (hc₂' ▸ hc₂)
    subst hc₂eq
    have hc₂mem : c₂' ∈ (createDocument d1 y1 t1 st).2.customers :=
      List.mem_of_find?_eq_some hc₂
    have hc₂p : c₂'.phone = p := by simpa using List.find?_some hc₂
    obtain ⟨c₀, hc₀⟩ : ∃ c₀, getCustomer c₂'.id
        (createDocument d1 y1 t1 st).2.customers = some c₀ :=
      Option.isSome_iff_exists.mp
        (List.find?_isSome.mpr ⟨c₂', hc₂mem, by simp⟩)
    have hc₀mem : c₀ ∈ (createDocument d1 y1 t1 st).2.customers :=
      List.mem_of_find?_eq_some hc₀
    have hc₀id : c₀.id = c₂'.id := by simpa using List.find?_some hc₀
    have hc₀eq : c₀ = c₂' := customer_eq_of_id_eq hnodup hc₀mem hc₂mem hc₀id
    rw [hB]
    unfold addDocumentToCustomer
    rw [hc₀, hc₀eq]
    dsimp only
    rw [if_neg hfresh]
    unfold updateCustomerDocuments
    refine ⟨{ c₂' with documents := c₂'.documents ++
      [d2.id.getD ("DOC" ++ toString t2)] }, ?_, hc₂p, rfl⟩
    have hg := List.mem_map_of_mem (fun customer =>
      if customer.id == c₂'.id then
        { customer with documents := c₂'.documents ++
          [d2.id.getD ("DOC" ++ toString t2)] }
      else customer) hc₂mem
    simpa using hg

/-- Witness for C4: two creations with phone "123" on the empty store leave
one customer holding both document ids. -/
theorem createDocument_customer_link_witness :
    (createDocument
        { customerName := some "A2", customerPhone := some "123",
          builderName := some "B", documentType := DocumentType.agreement }
        2026 1 (createDocument
          { customerName := some "A", customerPhone := some "123",
            builderName := some "B", documentType := DocumentType.agreement }
          2026 0 ⟨[], [], []⟩).2).2.customers.length =
      (createDocument
          { customerName := some "A", customerPhone := some "123",
            builderName := some "B", documentType := DocumentType.agreement }
          2026 0 ⟨[], [], []⟩).2.customers.length ∧
    (∃ c' ∈ (createDocument
        { customerName := some "A2", customerPhone := some "123",
          builderName := some "B", documentType := DocumentType.agreement }
        2026 1 (createDocument
          { customerName := some "A", customerPhone := some "123",
            builderName := some "B", documentType := DocumentType.agreement }
          2026 0 ⟨[], [], []⟩).2).2.customers,
      c'.phone = "123" ∧ c'.documents = ["DOC0"] ++ ["DOC1"]) := by
  have h := createDocument_customer_link ⟨[], [], []⟩
    { customerName := some "A", customerPhone := some "123",
      builderName := some "B", documentType := DocumentType.agreement }
    { customerName := some "A2", customerPhone := some "123",
      builderName := some "B", documentType := DocumentType.agreement }
    2026 2026 0 1 "123" (by decide) rfl rfl (by decide) (by decide)
  refine ⟨h.1, ?_⟩
  have h4 := h.2.2.2
    { id := "CUST001", name := "A", phone := "123", email := none,
      address := "", documents := ["DOC0"] }
    (by decide) (by decide) (by decide)
  simpa using h4

/-- Witness for C5: the admin passes an unlisted pair; the challan staff passes
exactly its listed pair and fails an unlisted one. -/
theorem hasPermission_spec_witness :
    hasPermission (some mockAdmin) "payroll" "approve" = true ∧
    hasPermission (some mockChallanStaff) "challans" "create" = true ∧
    hasPermission (some mockChallanStaff) "documents" "delete" ≠ true := by
  refine ⟨(hasPermission_spec mockAdmin "payroll" "approve").1 rfl, ?_, ?_⟩
  · exact ((hasPermission_spec mockChallanStaff "challans" "create").2
      (by decide)).mpr ⟨⟨"12", "challans", "create", true⟩, by decide, rfl, rfl, rfl⟩
  · intro hcontra
    have := ((hasPermission_spec mockChallanStaff "documents" "delete").2
      (by decide)).mp hcontra
    revert this
    decide

end OmApp
